import Mathlib

/-!
Shallow embedding of the EPUB reader's pagination/flow core
(reader-factory.js, base-reader.js, paged-reader.js, scroll-reader.js,
reader.js, database.js, config.js), together with theorems settling the
frozen claims about its specification.

JavaScript conventions used throughout the embedding:
* a value that may be `undefined`/`null` is an `Option`;
* string truthiness (`if (s)`) is `s ≠ ""` on a present value, false on
  an absent one;
* JS array indices are `Int` (negative or out-of-range reads yield
  `undefined`);
* `Math.round x` is `⌊x + 1/2⌋` on rationals;
* a JS array of TOC nodes is a `TocList` (a plain cons list, mutually
  inductive with `TocItem` so that all traversals are structural).
-/

/-- JS truthiness of a possibly-undefined string: `undefined`, `null` and
the empty string are falsy. -/
def optTruthy : Option String → Bool
  | none => false
  | some s => !(s == "")

/-- JS `a || b` on possibly-undefined strings: returns `a` when truthy,
otherwise `b`. -/
def jsOr (a b : Option String) : Option String :=
  if optTruthy a then a else b

/-- Substring test: does `pat` occur inside `s`? Models JS
`s.includes(pat)`. -/
def strIncludes (s pat : String) : Bool :=
  decide (pat.toList <:+: s.toList)

/-- JS `s.toLowerCase()`, character by character. -/
def strToLower (s : String) : String :=
  String.mk (s.toList.map Char.toLower)

mutual
/-- A node of the hierarchical table of contents, as delivered by the
decoder (`book.navigation.toc`): `label` and `href` may each be absent,
`subitems` may be absent or an array (an absent array behaves like an
empty one for every traversal in the source). -/
inductive TocItem where
  | mk (label : Option String) (href : Option String) (subitems : TocList) : TocItem
/-- An array of TOC nodes. -/
inductive TocList where
  | nil : TocList
  | cons (item : TocItem) (rest : TocList) : TocList
end

/-- Label of a TOC node. -/
def TocItem.label : TocItem → Option String
  | .mk l _ _ => l

/-- Href of a TOC node. -/
def TocItem.href : TocItem → Option String
  | .mk _ h _ => h

/-- The chapter-marker heuristic of `findFirstChapter` (reader.js /
base-reader.js): `const label = item.label?.toLowerCase() || '';
label.includes('chapter') || label.includes('chapitre')`. -/
def labelMatches (label : Option String) : Bool :=
  let l := strToLower (label.getD "")
  strIncludes l "chapter" || strIncludes l "chapitre"

mutual
/-- `findFirstChapter(items)` from reader.js (identical private copy
`_findFirstChapter` in base-reader.js): depth-first search returning the
href of the first node whose lowered label contains a chapter marker;
descends into `subitems` before moving to the next sibling; a falsy
recursive result is skipped (`if (found) return found`), in which case
the loop continues with the next sibling. -/
def findFirstChapter : TocList → Option String
  | .nil => none
  | .cons item rest =>
    match findFirstChapterItem item with
    | some v => v
    | none => findFirstChapter rest
termination_by structural t => t
/-- One iteration of the `for (const item of items)` loop body of
`findFirstChapter`: `some v` means the loop body executes `return v`
(a direct label match returns `item.href` unconditionally, even when
that href is falsy; a truthy recursive result `found` is returned by
`if (found) return found`); `none` means the loop continues with the
next sibling. -/
def findFirstChapterItem : TocItem → Option (Option String)
  | .mk label href subs =>
    if labelMatches label then some href
    else
      let found := findFirstChapter subs
      if optTruthy found then some found else none
termination_by structural t => t
end

/-- An entry of the flat chapter list built by `renderTOC` (reader.js):
`chapters.push({ label: item.label, href: item.href, level: level })`. -/
structure Chapter where
  label : Option String
  href : String
  level : Nat
deriving DecidableEq

mutual
/-- The recursive `addItems` closure inside `renderTOC` (reader.js):
depth-first flattening of the TOC; a node is pushed only when its href is
truthy (`if (item.href)`), children are visited at `level + 1` before the
next sibling. -/
def addItems : TocList → Nat → List Chapter
  | .nil, _ => []
  | .cons item rest, level => addItemsItem item level ++ addItems rest level
termination_by structural t => t
/-- The body of the `items?.forEach` inside `addItems` for one node. -/
def addItemsItem : TocItem → Nat → List Chapter
  | .mk label href subs, level =>
    (if optTruthy href then [⟨label, href.getD "", level⟩] else [])
      ++ addItems subs (level + 1)
termination_by structural t => t
end

mutual
/-- Total number of nodes of a TOC forest, counted recursively. -/
def countItems : TocList → Nat
  | .nil => 0
  | .cons item rest => countItemsItem item + countItems rest
termination_by structural t => t
/-- Total number of nodes of one TOC subtree. -/
def countItemsItem : TocItem → Nat
  | .mk _ _ subs => 1 + countItems subs
termination_by structural t => t
end

mutual
/-- Number of nodes of a TOC forest whose href is truthy. -/
def countHrefItems : TocList → Nat
  | .nil => 0
  | .cons item rest => countHrefItemsItem item + countHrefItems rest
termination_by structural t => t
/-- Number of nodes of one TOC subtree whose href is truthy. -/
def countHrefItemsItem : TocItem → Nat
  | .mk _ href subs =>
    (if optTruthy href then 1 else 0) + countHrefItems subs
termination_by structural t => t
end

mutual
/-- Does every node of the forest have a non-chapter label? (Node-wise
negation of `labelMatches`.) -/
def allNonChapter : TocList → Bool
  | .nil => true
  | .cons item rest => allNonChapterItem item && allNonChapter rest
termination_by structural t => t
/-- Does every node of the subtree have a non-chapter label? -/
def allNonChapterItem : TocItem → Bool
  | .mk label _ subs => !labelMatches label && allNonChapter subs
termination_by structural t => t
end

mutual
/-- Does every node of the forest have a truthy href? -/
def allHrefTruthy : TocList → Bool
  | .nil => true
  | .cons item rest => allHrefTruthyItem item && allHrefTruthy rest
termination_by structural t => t
/-- Does every node of the subtree have a truthy href? -/
def allHrefTruthyItem : TocItem → Bool
  | .mk _ href subs => optTruthy href && allHrefTruthy subs
termination_by structural t => t
end

/-- Start-location resolution in `ReaderEngine.initialize` (reader.js)
and `BaseReader.init` (base-reader.js):
`const startLocation = savedCFI || firstChapter || undefined;` where
`firstChapter = findFirstChapter(toc)`. `none` is the renderer's natural
start. -/
def startLocation (savedCFI : Option String) (toc : TocList) : Option String :=
  jsOr savedCFI (jsOr (findFirstChapter toc) none)

/-- Modelled from the spec (claim C3 wording only, for comparison with
the source): a start-location resolver that, when no saved position
exists and no chapter-like label is found, falls back to the very first
TOC entry, or to the document's natural start if the TOC is empty. -/
def specStartLocation (savedCFI : Option String) (toc : TocList) : Option String :=
  jsOr savedCFI (jsOr (findFirstChapter toc)
    (match toc with
     | .nil => none
     | .cons item _ => item.href))

/-- `Config.FONT.MIN` (config.js): minimum font size in percent. -/
def Config.FONT.MIN : Int := 50

/-- `Config.FONT.MAX` (config.js): maximum font size in percent. -/
def Config.FONT.MAX : Int := 200

/-- `Config.FONT.DEFAULT` (config.js): default font size in percent. -/
def Config.FONT.DEFAULT : Int := 100

/-- `Config.FONT.STEP` (config.js): font size increment per click. -/
def Config.FONT.STEP : Int := 10

/-- `BaseReader.changeFontSize(delta)` (base-reader.js), expressed on the
stored size it reads and writes: `newSize = current + delta` is persisted
only when `newSize >= Config.FONT.MIN && newSize <= Config.FONT.MAX`;
otherwise nothing happens (the stored size is left as it was). The
returned value is the stored `fontSize` after the call. -/
def changeFontSize (current delta : Int) : Int :=
  let newSize := current + delta
  if Config.FONT.MIN ≤ newSize ∧ newSize ≤ Config.FONT.MAX then newSize else current

/-- Modelled from the spec (claim C4 wording only, for comparison with
the source): a font-size change that clamps the requested size into
[Config.FONT.MIN, Config.FONT.MAX]. -/
def specClampFontSize (current delta : Int) : Int :=
  min Config.FONT.MAX (max Config.FONT.MIN (current + delta))

/-- JS `Math.round` on rationals: round half toward positive infinity. -/
def jsRound (q : ℚ) : Int := ⌊q + 1 / 2⌋

/-- `BaseReader._updateProgressIndicator` (base-reader.js), used by the
continuous (scrolled) mode: the displayed percent is
`Math.round((location.percentage || 0) * 100)`, where
`location.percentage` is the fraction reported by the rendering
surface's relocation event (`percentage = none` models an event without
that field). No clamping is applied. -/
def baseProgressPercent (percentage : Option ℚ) : Int :=
  jsRound (percentage.getD 0 * 100)

/-- `PagedReader._updateProgressIndicator` (paged-reader.js): when the
book's `locations` object exists (the precomputed location index started
by `locations.generate`), the displayed percent is
`Math.round(location.start.percentage * 100)`; otherwise `0`. No
clamping is applied. -/
def pagedProgressPercent (locationsExist : Bool) (startPercentage : ℚ) : Int :=
  if locationsExist then jsRound (startPercentage * 100) else 0

/-- A stored book record, restricted to the fields touched by
`DatabaseManager.saveProgress` / `DatabaseManager.update`
(database.js). -/
structure BookRec where
  lastCFI : Option String
  lastChapter : Option String
  lastRead : Nat
deriving DecidableEq

/-- The `books` object store of the database, keyed by book id. -/
def BookStore := List (Nat × BookRec)

/-- `DatabaseManager.get(id)` (database.js): key lookup in the `books`
store. -/
def dbGet (store : BookStore) (id : Nat) : Option BookRec :=
  match store.find? (fun p => p.1 == id) with
  | some p => some p.2
  | none => none

/-- Replace the record stored under `id` (IndexedDB `put` on an existing
key). -/
def dbPutReplace (store : BookStore) (id : Nat) (rec : BookRec) : BookStore :=
  store.map (fun p => if p.1 == id then (p.1, rec) else p)

/-- `DatabaseManager.update(id, updates)` (database.js): fetches the
book, throws `Book id not found` when absent, merges the updates and
puts the result back; a failing `put` (the storage collaborator
rejecting, modelled by `putFails`) is rethrown. -/
def dbUpdate (putFails : Bool) (store : BookStore) (id : Nat)
    (updates : BookRec → BookRec) : Except String BookStore :=
  match dbGet store id with
  | none => .error ("Book " ++ toString id ++ " not found")
  | some book =>
    if putFails then .error "put failed"
    else .ok (dbPutReplace store id (updates book))

/-- `DatabaseManager.saveProgress(id, cfi, chapterName)` (database.js):
`update(id, { lastCFI: cfi, lastChapter: chapterName, lastRead:
Date.now() })` wrapped in try/catch — every failure is logged and not
rethrown (the store is left unchanged). `now` stands for `Date.now()`.
The result is `Except` so that a rejection, were one possible, would
show up as `.error`. -/
def saveProgress (putFails : Bool) (store : BookStore) (id : Nat)
    (cfi : String) (chapterName : Option String) (now : Nat) :
    Except String BookStore :=
  match dbUpdate putFails store id
      (fun b => { b with lastCFI := some cfi, lastChapter := chapterName,
                         lastRead := now }) with
  | .ok s => .ok s
  | .error _ => .ok store

/-- In-memory session state read and written by `BaseReader`'s
navigation methods (base-reader.js): whether a rendition is live
(`this.rendition !== null`), the derived chapter list and current
chapter index held by the state manager, and the list of
`rendition.display(href)` requests that have been issued but whose
promises have not yet settled (in issue order). The index is an `Int`
because `Array.prototype.findIndex` can store `-1`. -/
structure ReaderState where
  renditionActive : Bool
  chapters : List Chapter
  currentChapterIndex : Int
  pendingDisplays : List String
deriving DecidableEq

/-- JS array read `chapters[i]` with an `Int` index: out-of-range and
negative reads give `undefined`. -/
def chapterAt (chapters : List Chapter) (i : Int) : Option Chapter :=
  if i < 0 then none else chapters.get? i.toNat

/-- `chapters.findIndex(ch => ch.href === href)` (base-reader.js):
index of the first chapter with exactly this href, `-1` when absent. -/
def findIndexHref (chapters : List Chapter) (href : String) : Int :=
  match chapters.findIdx? (fun ch => ch.href == href) with
  | some i => (i : Int)
  | none => -1

/-- `BaseReader.goToChapter(href)` (base-reader.js): returns early when
the rendition is absent or `href` is falsy; otherwise updates the
current chapter index only when `findIndex` succeeds, and in every case
issues `rendition.display(href)` (the display request is outside the
index check). UI calls (`closeTOC`, dropdowns) have no session-state
effect. -/
def goToChapter (href : String) (s : ReaderState) : ReaderState :=
  if !s.renditionActive || href == "" then s
  else
    let newIndex := findIndexHref s.chapters href
    let s1 := if newIndex ≠ -1 then { s with currentChapterIndex := newIndex } else s
    { s1 with pendingDisplays := s1.pendingDisplays ++ [href] }

/-- `BaseReader.prevChapter()` (base-reader.js): returns early when
`index <= 0`, the rendition is absent, or the chapter list is empty;
otherwise reads `chapters[index - 1]?.href` and, when that href is
truthy, stores the decremented index and issues the display request. -/
def prevChapter (s : ReaderState) : ReaderState :=
  if s.currentChapterIndex ≤ 0 || !s.renditionActive || s.chapters.length == 0 then s
  else
    let newIndex := s.currentChapterIndex - 1
    match chapterAt s.chapters newIndex with
    | some ch =>
      if ch.href ≠ "" then
        { s with currentChapterIndex := newIndex,
                 pendingDisplays := s.pendingDisplays ++ [ch.href] }
      else s
    | none => s

/-- `BaseReader.nextChapter()` (base-reader.js): returns early when
`index >= chapters.length - 1`, the rendition is absent, or the chapter
list is empty; otherwise reads `chapters[index + 1]?.href` and, when
that href is truthy, stores the incremented index and issues the
display request. -/
def nextChapter (s : ReaderState) : ReaderState :=
  if s.currentChapterIndex ≥ (s.chapters.length : Int) - 1 || !s.renditionActive
      || s.chapters.length == 0 then s
  else
    let newIndex := s.currentChapterIndex + 1
    match chapterAt s.chapters newIndex with
    | some ch =>
      if ch.href ≠ "" then
        { s with currentChapterIndex := newIndex,
                 pendingDisplays := s.pendingDisplays ++ [ch.href] }
      else s
    | none => s

/-- `ReaderEngine` state relevant to the re-entrancy guard (reader.js):
the `isNavigating` flag plus the session state the wrapped reader
mutates. -/
structure EngineState where
  isNavigating : Bool
  reader : ReaderState
deriving DecidableEq

/-- The synchronous part of `ReaderEngine.nextChapter()` (reader.js):
`safeNavigation(() => reader.nextChapter())` checks the `isNavigating`
flag — dropping the call when it is set — otherwise sets the flag and
runs the action body. `BaseReader.nextChapter` is synchronous and does
not return its `display` promise, so the whole action body (index
update and issuing the display request) completes within this
synchronous part. -/
def engineNextChapterSync (e : EngineState) : EngineState :=
  if e.isNavigating then e
  else { isNavigating := true, reader := nextChapter e.reader }

/-- The microtask that follows: `await action()` in `safeNavigation`
resolves — the action returned `undefined`, not the display promise, so
this await settles one microtask after the synchronous part, before any
later event-loop task — and the `finally` clears `isNavigating`. The
pending display promises are untouched. -/
def navFinallyMicrotask (e : EngineState) : EngineState :=
  { e with isNavigating := false }

/-- Settlement of the oldest pending `rendition.display` promise; its
`then` callback (`applyTheme`, `_scrollToTop`) does not touch the
chapter index or the flag. -/
def settleOldestDisplay (e : EngineState) : EngineState :=
  { e with reader := { e.reader with pendingDisplays := e.reader.pendingDisplays.drop 1 } }

/-- The rendering surface handle created by `_createRendition` and
driven through `display` (base-reader.js): `currentCfi` is
`currentLocation()?.start?.cfi` — the location reference the surface
currently reports, `none` before any location has been reported.
`display loc` binds the surface to `loc` (the external surface's
contract: render at location L, then report L back; `none` is the
document's natural start). -/
structure Rendition where
  currentCfi : Option String
deriving DecidableEq

/-- A `ScrollReader`/`PagedReader` instance as the factory sees it
(reader-factory.js): its mode string (the class that was constructed)
and, once `init` has run, its rendition. -/
structure Reader where
  mode : String
  rendition : Option Rendition
deriving DecidableEq

/-- The shared epub.js book, restricted to what the flow layer reads:
its navigation TOC. -/
structure Book where
  toc : TocList

/-- Module-level state of reader-factory.js plus the persisted flow
preference: `currentReader` and `sharedBook` are the module variables,
`readerFlow` is the state manager entry read by `getFlow`, `storedFlow`
the `localStorage` copy. -/
structure FactoryState where
  currentReader : Option Reader
  sharedBook : Option Book
  readerFlow : Option String
  storedFlow : Option String

/-- `getFlow()` (reader-factory.js):
`StateManager.get('readerFlow') || 'scrolled'`. -/
def getFlow (s : FactoryState) : String :=
  match s.readerFlow with
  | some f => if f == "" then "scrolled" else f
  | none => "scrolled"

/-- The constructor choice inside `createReader` (reader-factory.js):
`const mode = flow || getFlow(); if (mode === 'paginated') new
PagedReader() else new ScrollReader()` — the fresh instance has no
rendition yet. -/
def mkReader (flow : Option String) (s : FactoryState) : Reader :=
  let mode := jsOr flow (some (getFlow s))
  if mode == some "paginated" then ⟨"paginated", none⟩ else ⟨"scrolled", none⟩

/-- `createReader(flow)` (reader-factory.js): builds the instance and
stores it in the module variable `currentReader`; returns it. It has no
error branch — every argument yields a reader. -/
def createReader (flow : Option String) (s : FactoryState) : FactoryState × Reader :=
  let r := mkReader flow s
  ({ s with currentReader := some r }, r)

/-- `BaseReader.init(book, startCFI)` (base-reader.js), on the parts of
the state this layer observes: creates the rendition and displays at
`startCFI || findFirstChapter(toc) || undefined`; the surface then
reports that location. -/
def readerInit (r : Reader) (b : Book) (startCFI : Option String) : Reader :=
  { r with rendition := some ⟨startLocation startCFI b.toc⟩ }

/-- `currentReader?.isActive()` (base-reader.js: `rendition !== null`)
followed by `currentReader.rendition?.currentLocation()?.start?.cfi` —
the location-reference capture at the top of `switchFlow`. -/
def capturedCfi (s : FactoryState) : Option String :=
  match s.currentReader with
  | some r =>
    match r.rendition with
    | some rd => rd.currentCfi
    | none => none
  | none => none

/-- `switchFlow(newFlow)` (reader-factory.js). The result pairs the
factory state after the call with either the returned reader or the
thrown error message. The throw on an invalid flow is the first
statement of the function, before any mutation, so the error branch
returns the state unchanged. On the valid path: capture the current
CFI, persist the new flow (state manager and localStorage), and — when
a book is loaded — create the new reader and `await reader.init(
sharedBook, currentCFI)`; with no book loaded, only create the
reader. -/
def switchFlow (newFlow : String) (s : FactoryState) :
    FactoryState × Except String Reader :=
  if !(newFlow == "scrolled" || newFlow == "paginated") then
    (s, .error ("Flow invalide: " ++ newFlow))
  else
    let currentCFI := capturedCfi s
    let s1 := { s with readerFlow := some newFlow, storedFlow := some newFlow }
    match s1.sharedBook with
    | none =>
      let (s2, r) := createReader (some newFlow) s1
      (s2, .ok r)
    | some b =>
      let (s2, r0) := createReader (some newFlow) s1
      let r := readerInit r0 b currentCFI
      ({ s2 with currentReader := some r }, .ok r)

/-! ## Claim C3 — findFirstChapter null cases and the caller's fallback -/

mutual
/-- Helper: a forest whose labels are all non-chapter makes the search
return null. -/
theorem findFirstChapter_none_of_allNonChapter :
    ∀ t : TocList, allNonChapter t = true → findFirstChapter t = none
  | .nil, _ => rfl
  | .cons i r, h => by
    rw [allNonChapter] at h
    simp only [Bool.and_eq_true] at h
    rw [findFirstChapter, findFirstChapterItem_none_of_allNonChapterItem i h.1,
      findFirstChapter_none_of_allNonChapter r h.2]
termination_by structural t => t
/-- Helper: a subtree whose labels are all non-chapter makes the loop
body continue. -/
theorem findFirstChapterItem_none_of_allNonChapterItem :
    ∀ i : TocItem, allNonChapterItem i = true → findFirstChapterItem i = none
  | .mk l hr subs, h => by
    rw [allNonChapterItem] at h
    simp only [Bool.and_eq_true, Bool.not_eq_true'] at h
    rw [findFirstChapterItem]
    simp [h.1, findFirstChapter_none_of_allNonChapter subs h.2, optTruthy]
termination_by structural t => t
end

/-- C3 counterexample: the claim says that when `findFirstChapter`
returns null the caller falls back to the very first TOC entry when the
TOC is non-empty. On the one-entry TOC `[Cover -> cover.xhtml]` with no
saved position, the source's start-location resolution yields the
natural start (`undefined`), not `cover.xhtml`: the fallback chain is
`savedCFI || firstChapter || undefined`, with no first-entry case. -/
theorem startLocation_no_firstEntry_fallback :
    startLocation none (.cons (.mk (some "Cover") (some "cover.xhtml") .nil) .nil) = none ∧
    specStartLocation none (.cons (.mk (some "Cover") (some "cover.xhtml") .nil) .nil) =
      some "cover.xhtml" ∧
    startLocation none (.cons (.mk (some "Cover") (some "cover.xhtml") .nil) .nil) ≠
      specStartLocation none (.cons (.mk (some "Cover") (some "cover.xhtml") .nil) .nil) := by
  decide

/-- C3 (amended): `findFirstChapter` returns null on the empty TOC and
on every TOC whose node labels are all non-chapter; in that null case
the caller's start-location resolution (with no saved position) falls
back directly to the document's natural start (`undefined`), whether or
not the TOC is empty — never to the first TOC entry. -/
theorem findFirstChapter_null_and_fallback (toc : TocList)
    (h : allNonChapter toc = true) :
    findFirstChapter TocList.nil = none ∧
    findFirstChapter toc = none ∧
    startLocation none toc = none := by
  have hn := findFirstChapter_none_of_allNonChapter toc h
  exact ⟨rfl, hn, by simp [startLocation, jsOr, hn, optTruthy]⟩

/-- C3 witness: the amended theorem applied to the front-matter-only TOC
`[Cover, Title Page]`. -/
theorem findFirstChapter_null_and_fallback_witness :
    findFirstChapter TocList.nil = none ∧
    findFirstChapter (.cons (.mk (some "Cover") (some "cover.xhtml") .nil)
      (.cons (.mk (some "Title Page") (some "title.xhtml") .nil) .nil)) = none ∧
    startLocation none (.cons (.mk (some "Cover") (some "cover.xhtml") .nil)
      (.cons (.mk (some "Title Page") (some "title.xhtml") .nil) .nil)) = none :=
  findFirstChapter_null_and_fallback
    (.cons (.mk (some "Cover") (some "cover.xhtml") .nil)
      (.cons (.mk (some "Title Page") (some "title.xhtml") .nil) .nil)) (by decide)

/-! ## Claim C5 — renderTOC's flatten and node counting -/

mutual
/-- Helper: the flat list built by `addItems` has exactly one entry per
node with a truthy href, independently of the starting level. -/
theorem addItems_length_eq_countHref :
    ∀ (t : TocList) (lvl : Nat), (addItems t lvl).length = countHrefItems t
  | .nil, _ => rfl
  | .cons i r, lvl => by
    rw [addItems, countHrefItems, List.length_append,
      addItemsItem_length_eq_countHref i lvl, addItems_length_eq_countHref r lvl]
termination_by structural t => t
/-- Helper: entries contributed by one subtree. -/
theorem addItemsItem_length_eq_countHref :
    ∀ (i : TocItem) (lvl : Nat), (addItemsItem i lvl).length = countHrefItemsItem i
  | .mk l hr subs, lvl => by
    rw [addItemsItem, countHrefItemsItem, List.length_append,
      addItems_length_eq_countHref subs (lvl + 1)]
    cases optTruthy hr <;> simp
termination_by structural t => t
end

mutual
/-- Helper: when every node's href is truthy, the truthy-href count is
the total node count. -/
theorem countHref_eq_count_of_allTruthy :
    ∀ t : TocList, allHrefTruthy t = true → countHrefItems t = countItems t
  | .nil, _ => rfl
  | .cons i r, h => by
    rw [allHrefTruthy] at h
    simp only [Bool.and_eq_true] at h
    rw [countHrefItems, countItems, countHrefItem_eq_countItem_of_truthy i h.1,
      countHref_eq_count_of_allTruthy r h.2]
termination_by structural t => t
/-- Helper: subtree version. -/
theorem countHrefItem_eq_countItem_of_truthy :
    ∀ i : TocItem, allHrefTruthyItem i = true → countHrefItemsItem i = countItemsItem i
  | .mk l hr subs, h => by
    rw [allHrefTruthyItem] at h
    simp only [Bool.and_eq_true] at h
    rw [countHrefItemsItem, countItemsItem, h.1,
      countHref_eq_count_of_allTruthy subs h.2]
    simp
termination_by structural t => t
end

/-- C5 counterexample: the claim says the flattened list's length equals
the total node count of the input tree for every TOC tree. A one-node
tree whose node has no href is flattened to the empty list (`addItems`
pushes a node only under `if (item.href)`), so the length is 0 while
the recursive node count is 1. -/
theorem addItems_skips_hrefless_node :
    addItems (.cons (.mk (some "Part One") none .nil) .nil) 1 = [] ∧
    countItems (.cons (.mk (some "Part One") none .nil) .nil) = 1 ∧
    (addItems (.cons (.mk (some "Part One") none .nil) .nil) 1).length ≠
      countItems (.cons (.mk (some "Part One") none .nil) .nil) := by
  decide

/-- C5 (amended): `addItems` flattens depth-first and pushes exactly the
nodes whose href is truthy, so its length equals the recursive count of
truthy-href nodes; when every node of the tree has a truthy href this is
the total node count; the empty tree yields the empty list. -/
theorem addItems_length_counts (toc : TocList) (lvl : Nat)
    (h : allHrefTruthy toc = true) :
    (addItems toc lvl).length = countHrefItems toc ∧
    (addItems toc lvl).length = countItems toc ∧
    addItems TocList.nil lvl = [] := by
  refine ⟨addItems_length_eq_countHref toc lvl, ?_, rfl⟩
  rw [addItems_length_eq_countHref toc lvl, countHref_eq_count_of_allTruthy toc h]

/-- C5 witness: the amended theorem applied to a depth-3 tree with five
nodes, all with truthy hrefs. -/
theorem addItems_length_counts_witness :
    (addItems (.cons (.mk (some "Chapitre 1") (some "c1.xhtml")
        (.cons (.mk (some "Section 1.1") (some "c1s1.xhtml")
          (.cons (.mk (some "Part") (some "c1s1a.xhtml") .nil) .nil))
         (.cons (.mk (some "Section 1.2") (some "c1s2.xhtml") .nil) .nil)))
      (.cons (.mk (some "Chapitre 2") (some "c2.xhtml") .nil) .nil)) 1).length =
      countHrefItems (.cons (.mk (some "Chapitre 1") (some "c1.xhtml")
        (.cons (.mk (some "Section 1.1") (some "c1s1.xhtml")
          (.cons (.mk (some "Part") (some "c1s1a.xhtml") .nil) .nil))
         (.cons (.mk (some "Section 1.2") (some "c1s2.xhtml") .nil) .nil)))
      (.cons (.mk (some "Chapitre 2") (some "c2.xhtml") .nil) .nil)) ∧
    (addItems (.cons (.mk (some "Chapitre 1") (some "c1.xhtml")
        (.cons (.mk (some "Section 1.1") (some "c1s1.xhtml")
          (.cons (.mk (some "Part") (some "c1s1a.xhtml") .nil) .nil))
         (.cons (.mk (some "Section 1.2") (some "c1s2.xhtml") .nil) .nil)))
      (.cons (.mk (some "Chapitre 2") (some "c2.xhtml") .nil) .nil)) 1).length =
      countItems (.cons (.mk (some "Chapitre 1") (some "c1.xhtml")
        (.cons (.mk (some "Section 1.1") (some "c1s1.xhtml")
          (.cons (.mk (some "Part") (some "c1s1a.xhtml") .nil) .nil))
         (.cons (.mk (some "Section 1.2") (some "c1s2.xhtml") .nil) .nil)))
      (.cons (.mk (some "Chapitre 2") (some "c2.xhtml") .nil) .nil)) ∧
    addItems TocList.nil 1 = [] :=
  addItems_length_counts (.cons (.mk (some "Chapitre 1") (some "c1.xhtml")
        (.cons (.mk (some "Section 1.1") (some "c1s1.xhtml")
          (.cons (.mk (some "Part") (some "c1s1a.xhtml") .nil) .nil))
         (.cons (.mk (some "Section 1.2") (some "c1s2.xhtml") .nil) .nil)))
      (.cons (.mk (some "Chapitre 2") (some "c2.xhtml") .nil) .nil)) 1 (by decide)

/-! ## Claim C4 — changeFontSize range behaviour -/

/-- C4 counterexample: the claim says the resulting size is clamped into
[Config.FONT.MIN, Config.FONT.MAX]. From the default size 100, the delta
150 would clamp to 200; the source instead skips the update entirely
(`if (newSize >= MIN && newSize <= MAX)` guards the write), leaving the
size at 100. -/
theorem changeFontSize_does_not_clamp :
    changeFontSize 100 150 = 100 ∧
    specClampFontSize 100 150 = 200 ∧
    changeFontSize 100 150 ≠ specClampFontSize 100 150 := by
  decide

/-- C4 (amended): for every in-range current size, `changeFontSize`
keeps the size inside [Config.FONT.MIN, Config.FONT.MAX] without raising
an error, by silently ignoring (rather than clamping) any delta whose
result would leave the range; consequently an overshooting delta is a
no-op, and applying it twice in a row yields the same final size as
applying it once. -/
theorem changeFontSize_range_and_idempotent (c d : Int)
    (hmin : Config.FONT.MIN ≤ c) (hmax : c ≤ Config.FONT.MAX) :
    (Config.FONT.MIN ≤ changeFontSize c d ∧ changeFontSize c d ≤ Config.FONT.MAX) ∧
    (Config.FONT.MAX < c + d →
      changeFontSize c d = c ∧
      changeFontSize (changeFontSize c d) d = changeFontSize c d) ∧
    (c + d < Config.FONT.MIN →
      changeFontSize c d = c ∧
      changeFontSize (changeFontSize c d) d = changeFontSize c d) := by
  simp only [changeFontSize, Config.FONT.MIN, Config.FONT.MAX] at *
  refine ⟨?_, ?_, ?_⟩
  · split <;> omega
  · intro h
    have h1 : ¬(50 ≤ c + d ∧ c + d ≤ 200) := by omega
    simp [h1]
  · intro h
    have h1 : ¬(50 ≤ c + d ∧ c + d ≤ 200) := by omega
    simp [h1]

/-- C4 witness: the amended theorem at the default size 100 with delta
150 (overshooting MAX). -/
theorem changeFontSize_range_and_idempotent_witness :
    ((Config.FONT.MIN ≤ changeFontSize 100 150 ∧
        changeFontSize 100 150 ≤ Config.FONT.MAX) ∧
      (Config.FONT.MAX < 100 + 150 →
        changeFontSize 100 150 = 100 ∧
        changeFontSize (changeFontSize 100 150) 150 = changeFontSize 100 150) ∧
      (100 + 150 < Config.FONT.MIN →
        changeFontSize 100 150 = 100 ∧
        changeFontSize (changeFontSize 100 150) 150 = changeFontSize 100 150)) ∧
    Config.FONT.MAX < 100 + 150 :=
  ⟨changeFontSize_range_and_idempotent 100 150 (by decide) (by decide), by decide⟩

/-! ## Claim C7 — progress percentage computation -/

/-- C7 counterexample: the claim says the computed percentage is clamped
to [0, 100] even for out-of-range input fractions. For a relocation
event reporting the fraction 3/2, the continuous-mode indicator computes
round(3/2 * 100) = 150 and the paginated-mode indicator (with a
generated location index) does the same — neither clamps. -/
theorem progressPercent_not_clamped :
    baseProgressPercent (some (3 / 2)) = 150 ∧
    pagedProgressPercent true (3 / 2) = 150 ∧
    ¬(baseProgressPercent (some (3 / 2)) ≤ 100) ∧
    ¬(pagedProgressPercent true (3 / 2) ≤ 100) := by
  refine ⟨?_, ?_, ?_, ?_⟩ <;>
    norm_num [baseProgressPercent, pagedProgressPercent, jsRound]

/-- C7 (amended): the displayed percentage is round(fraction * 100) as
an integer with no clamping applied, so it lies in [0, 100] exactly when
the input fraction lies in [0, 1] (the range the rendering surface
normally reports): the continuous-mode indicator rounds the relocation
event's fraction (0 when the event carries none), and the
paginated-mode indicator rounds the relocation's start fraction when
the book's location-index object exists and shows 0 otherwise. -/
theorem progressPercent_range (f : ℚ) (h0 : 0 ≤ f) (h1 : f ≤ 1) :
    (0 ≤ baseProgressPercent (some f) ∧ baseProgressPercent (some f) ≤ 100) ∧
    (0 ≤ pagedProgressPercent true f ∧ pagedProgressPercent true f ≤ 100) ∧
    baseProgressPercent none = 0 ∧
    pagedProgressPercent false f = 0 := by
  have hb : 0 ≤ jsRound (f * 100) ∧ jsRound (f * 100) ≤ 100 := by
    unfold jsRound
    constructor
    · rw [Int.le_floor]
      push_cast
      nlinarith
    · have hlt : ⌊f * 100 + 1 / 2⌋ < 101 := by
        rw [Int.floor_lt]
        push_cast
        nlinarith
      omega
  refine ⟨?_, ?_, ?_, ?_⟩
  · simpa [baseProgressPercent] using hb
  · simpa [pagedProgressPercent] using hb
  · norm_num [baseProgressPercent, jsRound]
  · simp [pagedProgressPercent]

/-- C7 witness: the amended theorem at the fraction 1/2 (the relocation
halfway through). -/
theorem progressPercent_range_witness :
    ((0 ≤ baseProgressPercent (some (1 / 2)) ∧
        baseProgressPercent (some (1 / 2)) ≤ 100) ∧
      (0 ≤ pagedProgressPercent true (1 / 2) ∧
        pagedProgressPercent true (1 / 2) ≤ 100) ∧
      baseProgressPercent none = 0 ∧
      pagedProgressPercent false (1 / 2) = 0) ∧
    baseProgressPercent (some (1 / 2)) = 50 :=
  ⟨progressPercent_range (1 / 2) (by norm_num) (by norm_num),
   by norm_num [baseProgressPercent, jsRound]⟩

/-! ## Claim C9 — saveProgress never rejects -/

/-- C9: `DatabaseManager.saveProgress` never rejects: its whole body is
wrapped in try/catch with no rethrow, so for every store, book id,
position, chapter name and timestamp — and whether or not the
underlying put rejects — the result is `.ok`; in particular a missing
book id (which makes the inner `update` throw `Book id not found`) and
a rejecting put are both swallowed, leaving the store unchanged. -/
theorem saveProgress_never_rejects (putFails : Bool) (store : BookStore)
    (id : Nat) (cfi : String) (chapterName : Option String) (now : Nat) :
    (∃ s, saveProgress putFails store id cfi chapterName now = .ok s) ∧
    (dbGet store id = none →
      saveProgress putFails store id cfi chapterName now = .ok store ∧
      dbUpdate putFails store id (fun b =>
        { b with lastCFI := some cfi, lastChapter := chapterName,
                 lastRead := now }) =
        .error ("Book " ++ toString id ++ " not found")) ∧
    (putFails = true →
      saveProgress putFails store id cfi chapterName now = .ok store) := by
  refine ⟨?_, ?_, ?_⟩
  · unfold saveProgress
    cases h : dbUpdate putFails store id (fun b =>
        { b with lastCFI := some cfi, lastChapter := chapterName,
                 lastRead := now }) <;> exact ⟨_, rfl⟩
  · intro h
    unfold saveProgress dbUpdate
    rw [h]
    exact ⟨rfl, rfl⟩
  · intro h
    subst h
    unfold saveProgress dbUpdate
    cases hg : dbGet store id <;> simp

/-- C9 witness: the theorem at a store missing book 42, with a
rejecting put. -/
theorem saveProgress_never_rejects_witness :
    (∃ s, saveProgress true [] 42 "epubcfi(/6/4!/2)" (some "Chapitre 1") 7 = .ok s) ∧
    dbGet [] 42 = none ∧
    saveProgress true [] 42 "epubcfi(/6/4!/2)" (some "Chapitre 1") 7 = .ok [] :=
  ⟨(saveProgress_never_rejects true [] 42 "epubcfi(/6/4!/2)" (some "Chapitre 1") 7).1,
   rfl,
   ((saveProgress_never_rejects true [] 42 "epubcfi(/6/4!/2)" (some "Chapitre 1") 7).2.1 rfl).1⟩

/-! ## Claim C6 — zero-chapter and boundary navigation -/

/-- C6 counterexample: the claim says that on a zero-chapter book
`goToChapter(href)` is a no-op because the index lookup returns -1. In
the source the `rendition.display(href)` call sits outside the
`newIndex !== -1` check, so with a live rendition and a truthy href the
navigation request is still issued: the state changes (a pending
display appears), refuting the no-op. -/
theorem goToChapter_not_noop_on_zero_chapters :
    goToChapter "ch1.xhtml" ⟨true, [], 0, []⟩ ≠ ⟨true, [], 0, []⟩ ∧
    goToChapter "ch1.xhtml" ⟨true, [], 0, []⟩ = ⟨true, [], 0, ["ch1.xhtml"]⟩ ∧
    findIndexHref ([] : List Chapter) "ch1.xhtml" = -1 := by
  decide

/-- C6 (amended): on a zero-chapter book, `nextChapter()` and
`prevChapter()` are permanently no-ops, and more generally they are
no-ops at index ≤ 0 and at the last index respectively; `goToChapter`
on a zero-chapter book leaves the chapter index unchanged because the
index lookup returns -1, but it still forwards the display request to
the rendering surface — it is a full no-op only when the href is falsy
or no rendition is live. -/
theorem chapterNav_noops (s : ReaderState) (href : String) :
    (s.chapters = [] →
      nextChapter s = s ∧ prevChapter s = s ∧
      findIndexHref s.chapters href = -1 ∧
      (goToChapter href s).currentChapterIndex = s.currentChapterIndex) ∧
    (s.currentChapterIndex ≤ 0 → prevChapter s = s) ∧
    (s.currentChapterIndex ≥ (s.chapters.length : Int) - 1 → nextChapter s = s) ∧
    (href = "" → goToChapter href s = s) ∧
    (s.renditionActive = false → goToChapter href s = s) := by
  obtain ⟨act, chs, idx, pend⟩ := s
  refine ⟨?_, ?_, ?_, ?_, ?_⟩
  · intro h
    simp only at h
    subst h
    refine ⟨?_, ?_, rfl, ?_⟩
    · simp [nextChapter]
    · simp [prevChapter]
    · simp [goToChapter, findIndexHref]
      split <;> rfl
  · intro h
    simp only at h
    simp [prevChapter, h]
  · intro h
    simp only at h
    simp [nextChapter, h]
  · intro h
    subst h
    simp [goToChapter]
  · intro h
    simp only at h
    subst h
    simp [goToChapter]

/-- C6 witness: the amended theorem on a zero-chapter book with a live
rendition at index 0. -/
theorem chapterNav_noops_witness :
    nextChapter ⟨true, [], 0, []⟩ = ⟨true, [], 0, []⟩ ∧
    prevChapter ⟨true, [], 0, []⟩ = ⟨true, [], 0, []⟩ ∧
    findIndexHref ([] : List Chapter) "any.xhtml" = -1 ∧
    (goToChapter "any.xhtml" ⟨true, [], 0, []⟩).currentChapterIndex = 0 :=
  (chapterNav_noops ⟨true, [], 0, []⟩ "any.xhtml").1 rfl

/-! ## Claim C1 — the re-entrancy guard and double nextChapter() -/

/-- C1: evaluation of the source at the failing schedule. On a book with
three chapters at index 0:
* two `ReaderEngine.nextChapter()` calls in the same synchronous burst
  are indeed collapsed to one advance (the flag is still set), but
* `BaseReader.nextChapter` does not return its `display` promise, so
  `await action()` inside `safeNavigation` settles one microtask after
  the synchronous body and the `finally` clears `isNavigating` there —
  long before the display promise settles. A second `nextChapter()`
  arriving in any later event-loop task (e.g. an iOS ghost click a few
  hundred milliseconds after the tap) therefore finds the flag already
  cleared while the first navigation is still pending, and the chapter
  index advances by two: the final index is 2 with both display
  promises still unsettled, where the claim requires the second call to
  be dropped and the index to advance by exactly one. -/
theorem doubleNextChapter_advances_twice :
    (engineNextChapterSync (engineNextChapterSync
        ⟨false, ⟨true, [⟨some "Chapitre 1", "c1.xhtml", 1⟩,
          ⟨some "Chapitre 2", "c2.xhtml", 1⟩,
          ⟨some "Chapitre 3", "c3.xhtml", 1⟩], 0, []⟩⟩)).reader.currentChapterIndex
      = 1 ∧
    (engineNextChapterSync (navFinallyMicrotask (engineNextChapterSync
        ⟨false, ⟨true, [⟨some "Chapitre 1", "c1.xhtml", 1⟩,
          ⟨some "Chapitre 2", "c2.xhtml", 1⟩,
          ⟨some "Chapitre 3", "c3.xhtml", 1⟩], 0, []⟩⟩))).reader.currentChapterIndex
      = 2 ∧
    (engineNextChapterSync (navFinallyMicrotask (engineNextChapterSync
        ⟨false, ⟨true, [⟨some "Chapitre 1", "c1.xhtml", 1⟩,
          ⟨some "Chapitre 2", "c2.xhtml", 1⟩,
          ⟨some "Chapitre 3", "c3.xhtml", 1⟩], 0, []⟩⟩))).reader.pendingDisplays
      = ["c2.xhtml", "c3.xhtml"] := by
  decide

/-! ## Claim C8 — switchFlow rejects invalid modes without state change -/

/-- C8: for every string that is neither of the two valid flow modes,
`switchFlow` throws `Flow invalide: ...` — the throw is the first
statement of the function — and the factory state (current reader,
shared book, flow preference in the state manager and in localStorage)
is exactly as it was before the call. -/
theorem switchFlow_invalid_mode_rejects (s : FactoryState) (m : String)
    (h1 : m ≠ "scrolled") (h2 : m ≠ "paginated") :
    switchFlow m s = (s, .error ("Flow invalide: " ++ m)) := by
  have b1 : (m == "scrolled") = false := by simpa using h1
  have b2 : (m == "paginated") = false := by simpa using h2
  simp [switchFlow, b1, b2]

/-- C8 witness: the theorem at the invalid mode string "vertical" on a
factory holding a paginated reader and a book. -/
theorem switchFlow_invalid_mode_rejects_witness :
    switchFlow "vertical"
      ⟨some ⟨"paginated", some ⟨some "epubcfi(/6/8!/4)"⟩⟩,
       some ⟨.nil⟩, some "paginated", some "paginated"⟩ =
    (⟨some ⟨"paginated", some ⟨some "epubcfi(/6/8!/4)"⟩⟩,
       some ⟨.nil⟩, some "paginated", some "paginated"⟩,
     .error ("Flow invalide: " ++ "vertical")) :=
  switchFlow_invalid_mode_rejects _ "vertical" (by decide) (by decide)

/-! ## Claim C10 — createReader dispatch and totality -/

/-- C10 counterexample: the claim says every value other than the exact
string 'paginated' yields a ScrollReader. Calling `createReader(null)`
while the stored preference is 'paginated' falls back to that
preference and constructs a PagedReader, not a ScrollReader. -/
theorem createReader_null_with_paginated_pref :
    (createReader none ⟨none, none, some "paginated", none⟩).2.mode = "paginated" ∧
    (createReader none ⟨none, none, some "paginated", none⟩).2.mode ≠ "scrolled" := by
  decide

/-- C10 (amended): `createReader` rejects nothing — every argument
constructs a reader, 'paginated' or 'scrolled' (the invalid-mode throw
exists only in `switchFlow`): the exact string 'paginated' yields a
PagedReader; every other truthy string yields a ScrollReader; a falsy
argument (null, empty string) falls back to the stored preference,
yielding a PagedReader exactly when that preference is 'paginated'. -/
theorem createReader_total_dispatch (flow : Option String) (s : FactoryState) :
    ((createReader flow s).2.mode = "paginated" ∨
      (createReader flow s).2.mode = "scrolled") ∧
    (createReader (some "paginated") s).2.mode = "paginated" ∧
    (∀ m : String, m ≠ "" → m ≠ "paginated" →
      (createReader (some m) s).2.mode = "scrolled") ∧
    (optTruthy flow = false →
      (createReader flow s).2.mode =
        (if getFlow s = "paginated" then "paginated" else "scrolled")) := by
  refine ⟨?_, ?_, ?_, ?_⟩
  · unfold createReader mkReader
    dsimp only
    split <;> simp
  · simp [createReader, mkReader, jsOr, optTruthy]
  · intro m hm hp
    have b1 : (m == "") = false := by simpa using hm
    have b2 : (m == "paginated") = false := by simpa using hp
    simp [createReader, mkReader, jsOr, optTruthy, b1, b2]
  · intro h
    unfold createReader mkReader jsOr
    rw [h]
    simp only [Bool.false_eq_true, if_false]
    split
    · rename_i hq
      simp only [Option.some.injEq, beq_iff_eq] at hq
      simp [hq]
    · rename_i hq
      simp only [Option.some.injEq, beq_iff_eq] at hq
      simp [hq]

/-- C10 witness: the dispatch theorem at the arbitrary invalid string
"vertical" with an empty factory state, and its falsy-fallback part at
`null` with no stored preference. -/
theorem createReader_total_dispatch_witness :
    (createReader (some "vertical") ⟨none, none, none, none⟩).2.mode = "scrolled" ∧
    (createReader none ⟨none, none, none, none⟩).2.mode =
      (if getFlow ⟨none, none, none, none⟩ = "paginated"
       then "paginated" else "scrolled") :=
  ⟨(createReader_total_dispatch (some "vertical") ⟨none, none, none, none⟩).2.2.1
      "vertical" (by decide) (by decide),
   (createReader_total_dispatch none ⟨none, none, none, none⟩).2.2.2 rfl⟩

/-! ## Claim C2 — switchFlow location capture and round-trip -/

/-- C2 counterexample: the claim says the book is re-rendered at the
captured location reference, or at undefined when none was captured.
With a live reader that has not yet reported a location (no relocation
settled) and a book whose TOC carries a chapter-labelled entry, nothing
is captured, yet the fresh reader is initialised at the first
chapter-like TOC entry `c1.xhtml` — not at undefined: `reader.init`
resolves `startCFI || findFirstChapter(toc) || undefined`. -/
theorem switchFlow_uncaptured_not_undefined :
    capturedCfi ⟨some ⟨"scrolled", some ⟨none⟩⟩,
      some ⟨.cons (.mk (some "Chapitre 1") (some "c1.xhtml") .nil) .nil⟩,
      some "scrolled", some "scrolled"⟩ = none ∧
    (switchFlow "paginated" ⟨some ⟨"scrolled", some ⟨none⟩⟩,
      some ⟨.cons (.mk (some "Chapitre 1") (some "c1.xhtml") .nil) .nil⟩,
      some "scrolled", some "scrolled"⟩).1.currentReader =
      some ⟨"paginated", some ⟨some "c1.xhtml"⟩⟩ ∧
    (switchFlow "paginated" ⟨some ⟨"scrolled", some ⟨none⟩⟩,
      some ⟨.cons (.mk (some "Chapitre 1") (some "c1.xhtml") .nil) .nil⟩,
      some "scrolled", some "scrolled"⟩).1.currentReader ≠
      some ⟨"paginated", some ⟨(none : Option String)⟩⟩ := by
  decide

/-- C2 (amended): for every open book, `switchFlow(newMode)` with a
valid mode constructs a fresh reader of the class matching `newMode`,
installs it in place of the old one, and re-renders the same book
starting at the location reference captured from the live reader; when
a location was captured before the first switch, switching mode twice
with no operations in between restores exactly that location reference
(when nothing was captured, the re-render instead falls back to the
first chapter-like TOC entry, or undefined if none exists). -/
theorem switchFlow_roundtrip (s : FactoryState) (b : Book) (r : Reader)
    (rd : Rendition) (L : String) (m1 m2 : String)
    (hb : s.sharedBook = some b)
    (hr : s.currentReader = some r)
    (hrd : r.rendition = some rd)
    (hL : rd.currentCfi = some L) (hLne : L ≠ "")
    (hm1 : m1 = "scrolled" ∨ m1 = "paginated")
    (hm2 : m2 = "scrolled" ∨ m2 = "paginated") :
    (switchFlow m1 s).2 =
      .ok ⟨if m1 = "paginated" then "paginated" else "scrolled", some ⟨some L⟩⟩ ∧
    (switchFlow m1 s).1.currentReader =
      some ⟨if m1 = "paginated" then "paginated" else "scrolled", some ⟨some L⟩⟩ ∧
    (switchFlow m2 (switchFlow m1 s).1).2 =
      .ok ⟨if m2 = "paginated" then "paginated" else "scrolled", some ⟨some L⟩⟩ := by
  have hLb : (L == "") = false := by simpa using hLne
  rcases hm1 with rfl | rfl <;> rcases hm2 with rfl | rfl <;>
    simp [switchFlow, capturedCfi, createReader, mkReader, readerInit,
      startLocation, jsOr, optTruthy, getFlow, hb, hr, hrd, hL, hLb]

/-- C2 witness: the round-trip theorem on a continuous-mode reader that
has reported the location `epubcfi(/6/10!/4/2)`, switched to paginated
and back to scrolled. -/
theorem switchFlow_roundtrip_witness :
    (switchFlow "paginated" ⟨some ⟨"scrolled", some ⟨some "epubcfi(/6/10!/4/2)"⟩⟩,
        some ⟨.nil⟩, some "scrolled", some "scrolled"⟩).2 =
      .ok ⟨"paginated", some ⟨some "epubcfi(/6/10!/4/2)"⟩⟩ ∧
    (switchFlow "paginated" ⟨some ⟨"scrolled", some ⟨some "epubcfi(/6/10!/4/2)"⟩⟩,
        some ⟨.nil⟩, some "scrolled", some "scrolled"⟩).1.currentReader =
      some ⟨"paginated", some ⟨some "epubcfi(/6/10!/4/2)"⟩⟩ ∧
    (switchFlow "scrolled" (switchFlow "paginated"
        ⟨some ⟨"scrolled", some ⟨some "epubcfi(/6/10!/4/2)"⟩⟩,
         some ⟨.nil⟩, some "scrolled", some "scrolled"⟩).1).2 =
      .ok ⟨"scrolled", some ⟨some "epubcfi(/6/10!/4/2)"⟩⟩ :=
  switchFlow_roundtrip
    ⟨some ⟨"scrolled", some ⟨some "epubcfi(/6/10!/4/2)"⟩⟩,
     some ⟨.nil⟩, some "scrolled", some "scrolled"⟩
    ⟨.nil⟩ ⟨"scrolled", some ⟨some "epubcfi(/6/10!/4/2)"⟩⟩
    ⟨some "epubcfi(/6/10!/4/2)"⟩ "epubcfi(/6/10!/4/2)" "paginated" "scrolled"
    rfl rfl rfl rfl (by decide) (Or.inr rfl) (Or.inl rfl)
